import Mathlib

/-!
Shallow embedding of the WHISPR multi-vector threat detector
(`app.py`, `bluetooth_detection_model.py`, `whispr_live_prediction.py`).

Python strings are modelled as `String` / `List Char` (ASCII case folding,
matching the keyword sets actually used), Python float arithmetic as exact
rationals `ℚ` (reals `ℝ` where a real power is computed), dict fields that
may be absent as `Option`, and a raised exception as `Except.error`.
The three persisted ML artifacts (scaler, PCA, one-class SVM) are opaque
binary blobs; their composite behaviour is abstracted as an `AICore.run`
function that either produces a decision-function score or raises.
-/

/-- Substring helpers: `startsWithSub hay needle` holds when `needle` is an
initial segment of `hay`; `containsSub hay needle` models Python's
`needle in hay`. -/
def startsWithSub : List Char → List Char → Bool
  | _, [] => true
  | [], _ :: _ => false
  | a :: as, b :: bs => a == b && startsWithSub as bs

def containsSub : List Char → List Char → Bool
  | [], needle => startsWithSub [] needle
  | c :: t, needle => startsWithSub (c :: t) needle || containsSub t needle

/-- ASCII model of Python `str.lower()`. -/
def lowerChars (cs : List Char) : List Char :=
  cs.map Char.toLower

/-- Model of Python `str.strip()`: drop leading and trailing whitespace. -/
def trimChars (cs : List Char) : List Char :=
  ((cs.dropWhile Char.isWhitespace).reverse.dropWhile Char.isWhitespace).reverse

/-- Digits of a numeral read into a natural number. -/
def digitsToNat (cs : List Char) : ℕ :=
  cs.foldl (fun a c => 10 * a + (c.toNat - 48)) 0

/-- Unsigned part of Python `float(...)` string parsing, restricted to plain
decimal numerals (`"80"`, `"80."`, `".5"`, `"12.25"`); anything else is a
`ValueError`, i.e. `none`. Exponent/inf/nan forms never occur in this data. -/
def parseUnsignedFloat (cs : List Char) : Option ℚ :=
  let intPart := cs.takeWhile Char.isDigit
  match cs.dropWhile Char.isDigit with
  | [] => if intPart.isEmpty then none else some (digitsToNat intPart : ℚ)
  | '.' :: frac =>
    if frac.all Char.isDigit && !(intPart.isEmpty && frac.isEmpty) then
      some ((digitsToNat intPart : ℚ) + (digitsToNat frac : ℚ) / (10 : ℚ) ^ frac.length)
    else none
  | _ => none

/-- Python `float(...)` on an already-stripped string: optional sign, then an
unsigned decimal numeral. -/
def parsePyFloat : List Char → Option ℚ
  | '-' :: rest => (parseUnsignedFloat rest).map (fun q => -q)
  | '+' :: rest => parseUnsignedFloat rest
  | cs => parseUnsignedFloat cs

/-- One raw Wi-Fi scan record, as consumed by `process_wifi_data`: the three
dict keys it reads (`Authentication`, `Signal (%)`, `SSID`), each possibly
absent. -/
structure NetworkRecord where
  auth : Option String
  signal : Option String
  ssid : Option String
deriving DecidableEq

/-- Outcome of running the persisted scaler → PCA → decision_function chain
on a feature vector: either an anomaly score or a raised exception. -/
inductive RunOutcome
  | raised
  | scored (s : ℚ)
deriving DecidableEq

/-- The AI core state of the server: whether `MODEL` is loaded (not `None`),
and the opaque transform/score chain. -/
structure AICore where
  modelLoaded : Bool
  run : List ℚ → RunOutcome

/-- Which of the three `joblib.load` calls in the module-level `try` block
succeed. -/
structure ArtifactLoad where
  scalerOk : Bool
  pcaOk : Bool
  modelOk : Bool
deriving DecidableEq

/-- The module-level `try` block loads scaler, then PCA, then model, and a
failure aborts the block; so `MODEL` ends up loaded exactly when all three
loads succeeded. -/
def modelLoadedAfterStartup (a : ArtifactLoad) : Bool :=
  a.scalerOk && a.pcaOk && a.modelOk

/-- `THREAT_THRESHOLD` constant of `app.py`. -/
def THREAT_THRESHOLD : ℚ := -0.01

/-- `assess_signal` of `app.py`: guard on `MODEL is None`, run the transform
chain inside `try`, convert any exception to `("PROCESSING_ERROR", 999.0)`. -/
def assess_signal (core : AICore) (raw_features : List ℚ) : String × ℚ :=
  if core.modelLoaded = false then ("PROCESSING_ERROR", 999)
  else
    match core.run raw_features with
    | .raised => ("PROCESSING_ERROR", 999)
    | .scored anomaly_score =>
      (if anomaly_score < THREAT_THRESHOLD then "THREAT" else "BENIGN", anomaly_score)

/-- `assess_live_signal` of `whispr_live_prediction.py`: returns
`("ERROR", 999.0)` when the artifacts are missing, and has no `try/except`,
so a runtime exception in the transform chain propagates to the caller
(modelled as `Except.error ()`). Its local `THREAT_THRESHOLD` is `-0.1`. -/
def assess_live_signal (core : AICore) (raw_features : List ℚ) :
    Except Unit (String × ℚ) :=
  if core.modelLoaded = false then .ok ("ERROR", 999)
  else
    match core.run raw_features with
    | .raised => .error ()
    | .scored anomaly_score =>
      .ok (if anomaly_score < (-0.1 : ℚ) then "THREAT" else "BENIGN", anomaly_score)

/-- `security_value` local of `process_wifi_data`:
`str(connected_network.get('Authentication', 'N/A')).lower()`. -/
def securityValue (conn : NetworkRecord) : List Char :=
  lowerChars (conn.auth.getD "N/A").toList

/-- `ssid_value` local of `process_wifi_data`:
`connected_network.get('SSID', '').lower()`. -/
def ssidValue (conn : NetworkRecord) : List Char :=
  lowerChars (conn.ssid.getD "").toList

/-- `signal_percent_str` local of `process_wifi_data`:
`str(connected_network.get('Signal (%)', '70%')).replace('%', '').strip()`. -/
def normalizedSignalStr (conn : NetworkRecord) : List Char :=
  trimChars ((conn.signal.getD "70%").toList.filter (fun c => c ≠ '%'))

/-- `signal_percent` local of `process_wifi_data`: `float(...)` of the
normalized string, falling back to `70.0` on `ValueError`. -/
def signalPercent (conn : NetworkRecord) : ℚ :=
  (parsePyFloat (normalizedSignalStr conn)).getD 70

/-- `is_secure` local of `process_wifi_data`: `'wpa' in security_value or
'wpa2' in security_value or 'wpa3' in security_value`. -/
def isSecure (conn : NetworkRecord) : Bool :=
  containsSub (securityValue conn) "wpa".toList ||
    containsSub (securityValue conn) "wpa2".toList ||
    containsSub (securityValue conn) "wpa3".toList

/-- `public_keywords` constant of `process_wifi_data`. -/
def publicKeywords : List String :=
  ["guest", "free", "public", "cafe", "airport", "hotel"]

/-- `is_public_open` local of `process_wifi_data`. -/
def isPublicOpen (conn : NetworkRecord) : Bool :=
  !isSecure conn && publicKeywords.any (fun k => containsSub (ssidValue conn) k.toList)

/-- Lines 101–149 of `app.py`: derive the 5-feature vector and the heuristic
threat tier from the connected network record. The straight-line Python
(initialize the secure defaults, then overwrite in the `is_open` branches)
is expressed as the equivalent three-way selection. -/
def wifiFeaturesAndTier (conn : NetworkRecord) : List ℚ × String :=
  let signal_percent := signalPercent conn
  let is_open := !isSecure conn
  let profile : ℚ × ℚ × ℚ × ℚ × String :=
    if is_open then
      if isPublicOpen conn then (5.0, 30, 7, 0, "MILD")
      else (25.0, 150, 1, 1, "HIGH")
    else (1.5, 10, 9, 0, "LOW")
  let rssi_mean := -100 + signal_percent * 0.7
  ([rssi_mean, profile.1, profile.2.1, profile.2.2.1, profile.2.2.2.1],
    profile.2.2.2.2)

/-- The report dict built by `process_wifi_data`. -/
structure WifiReport where
  result : String
  score : ℚ
  raw_features : List ℚ
  ssid : String
  networks : List NetworkRecord
  threat_tier : String
deriving DecidableEq

/-- `process_wifi_data` of `app.py`. The empty-list case returns the sentinel
report. Otherwise the features and heuristic tier are derived from the first
record, the AI core scores them, a statistical `"THREAT"` verdict overrides
the tier to `"CRITICAL"`, and the report is assembled — unless the first
record has no `SSID` key, in which case the unguarded
`connected_network['SSID']` lookup in the log line raises `KeyError`
(`Except.error ()`) before any report is returned. -/
def process_wifi_data (core : AICore) :
    List NetworkRecord → Except Unit WifiReport
  | [] => .ok ⟨"NO_NETWORKS_FOUND", 0, List.replicate 5 (-1), "N/A", [], "LOW"⟩
  | connected_network :: rest =>
    let ft := wifiFeaturesAndTier connected_network
    let rs := assess_signal core ft.1
    let threat_tier := if rs.1 = "THREAT" then "CRITICAL" else ft.2
    match connected_network.ssid with
    | none => .error ()
    | some s =>
      .ok ⟨rs.1, rs.2, ft.1, s, connected_network :: rest, threat_tier⟩

/-- Environment one tick of the watcher observes: the file's mtime (`none`
models `FileNotFoundError` from `os.path.getmtime`) and the payload
`get_latest_scan_data` would return (`none` models an unreadable or
unparseable file). -/
structure TickEnv where
  mtime : Option ℚ
  payload : Option (List NetworkRecord)

/-- One iteration of the `check_for_file_updates` loop in `app.py`, as a
function of the `last_modified_time` global and the observed environment;
returns the new value of the global and the reports emitted. The marker is
updated only on the path where a truthy (non-empty) payload was fetched and
processed without an exception; a `KeyError` escaping `process_wifi_data`
is caught by the loop's generic handler, leaving the marker unchanged. -/
def check_for_file_updates_tick (core : AICore) (last_modified_time : ℚ)
    (env : TickEnv) : ℚ × List WifiReport :=
  match env.mtime with
  | none => (last_modified_time, [])
  | some current_modified_time =>
    if current_modified_time > last_modified_time then
      match env.payload with
      | some (n :: ns) =>
        match process_wifi_data core (n :: ns) with
        | .ok report_data => (current_modified_time, [report_data])
        | .error _ => (last_modified_time, [])
      | _ => (last_modified_time, [])
    else (last_modified_time, [])

/-- `RSSI_AT_1M` calibration constant of `bluetooth_detection_model.py`. -/
def RSSI_AT_1M : ℝ := -59.0

/-- `PATH_LOSS_EXPONENT` calibration constant of
`bluetooth_detection_model.py`. -/
def PATH_LOSS_EXPONENT : ℝ := 2.8

/-- `MAJOR_CLASS_AUDIO_VIDEO` constant (`0x04`). -/
def MAJOR_CLASS_AUDIO_VIDEO : ℕ := 0x04

/-- `MAJOR_CLASS_PHONE` constant (`0x02`). -/
def MAJOR_CLASS_PHONE : ℕ := 0x02

/-- `calculate_distance` of `bluetooth_detection_model.py`: log-distance
path-loss model with a 0.1 m floor at or above the 1 m reference RSSI. -/
noncomputable def calculate_distance (rssi : ℝ) : ℝ :=
  if rssi ≥ RSSI_AT_1M then 0.1
  else (10 : ℝ) ^ ((RSSI_AT_1M - rssi) / (10.0 * PATH_LOSS_EXPONENT))

/-- `get_major_class_from_name` of `bluetooth_detection_model.py`. -/
def get_major_class_from_name (device_name : List Char) : ℕ :=
  if device_name = [] then 0x00
  else
    let name_lower := lowerChars device_name
    if containsSub name_lower "mic".toList = true ∨
        containsSub name_lower "headset".toList = true ∨
        containsSub name_lower "speaker".toList = true then
      MAJOR_CLASS_AUDIO_VIDEO
    else MAJOR_CLASS_PHONE

/-- The dict returned by `assess_bluetooth_threat`, minus the free-text
`description` (display formatting of the distance, carrying no decision
content) and with `distance_m` unrounded (the source applies
`round(distance, 2)` for display only). -/
structure BtAssessment where
  status : String
  distance_m : ℝ
  rssi_dbm : ℝ
  device_type_code : ℕ
  device_name : List Char

/-- `assess_bluetooth_threat` of `bluetooth_detection_model.py`: the
proximity/device-class tiering table, evaluated top-down with the first
matching branch deciding the status. -/
noncomputable def assess_bluetooth_threat (rssi : ℝ) (device_class_major : ℕ)
    (device_name : List Char) : BtAssessment :=
  let distance := calculate_distance rssi
  let device_name_lower := lowerChars device_name
  let threat_level :=
    if distance < 0.5 then
      if device_class_major = MAJOR_CLASS_AUDIO_VIDEO ∨
          containsSub device_name_lower "sniffer".toList = true ∨
          containsSub device_name_lower "mic".toList = true then "CRITICAL"
      else "HIGH"
    else if distance < 3.0 then
      if containsSub device_name_lower "mic".toList = true ∨
          device_class_major = MAJOR_CLASS_AUDIO_VIDEO then "HIGH"
      else "LOW"
    else "LOW"
  ⟨threat_level, distance, rssi, device_class_major, device_name⟩

/-- `BT_PROXIMITY_LIMIT` constant of `app.py`. -/
def BT_PROXIMITY_LIMIT : ℚ := 10.0

/-- One device entry of the `threat_results.json` payload as read by the
Bluetooth endpoint: the `distance_m` key (possibly absent) and the `status`
string. -/
structure BtRawDevice where
  distance_m : Option ℚ
  status : String
deriving DecidableEq

/-- The `threat_results.json` payload as read by the Bluetooth endpoint. -/
structure BtRawData where
  scan_time : Option String
  iteration : Option ℕ
  devices : List BtRawDevice
deriving DecidableEq

/-- The `bluetooth` section of the response built by
`bluetooth_scan_endpoint` (the `metadata` echo of `scan_time`/`iteration`
is omitted: it carries no decision content). -/
structure BtReport where
  devices_detected : ℕ
  devices : List BtRawDevice
  max_threat : String
deriving DecidableEq

/-- The `max_threat` loop of `bluetooth_scan_endpoint`: start from `"LOW"`,
a `"CRITICAL"` device short-circuits, a `"HIGH"` device raises the running
value and the scan continues. -/
def maxThreatOf (acc : String) : List BtRawDevice → String
  | [] => acc
  | d :: ds =>
    if d.status = "CRITICAL" then "CRITICAL"
    else if d.status = "HIGH" then maxThreatOf "HIGH" ds
    else maxThreatOf acc ds

/-- `bluetooth_scan_endpoint` of `app.py`: falsy raw data yields the empty
sentinel report; otherwise devices farther than `BT_PROXIMITY_LIMIT`
(a missing `distance_m` defaults to `BT_PROXIMITY_LIMIT + 1`) are filtered
out before `max_threat` is computed over the survivors. -/
def bluetooth_scan_endpoint (bt_raw_data : Option BtRawData) : BtReport :=
  match bt_raw_data with
  | none => ⟨0, [], "LOW"⟩
  | some raw =>
    let filtered_devices :=
      raw.devices.filter
        (fun device => device.distance_m.getD (BT_PROXIMITY_LIMIT + 1) ≤ BT_PROXIMITY_LIMIT)
    ⟨filtered_devices.length, filtered_devices, maxThreatOf "LOW" filtered_devices⟩

/-! Concrete inputs shared by several witnesses. -/

/-- An AI core whose transform chain always yields the strong anomaly score
`-1.0` (below both thresholds). -/
def coreThreat : AICore := ⟨true, fun _ => .scored (-1)⟩

/-- A secure connected network at 80 % signal. -/
def conn0 : NetworkRecord := ⟨some "WPA2-Personal", some "80%", some "HomeNet"⟩

/-- The report `process_wifi_data` produces for `conn0` under `coreThreat`. -/
def c1Report : WifiReport :=
  ⟨"THREAT", -1, [-44, 1.5, 10, 9, 0], "HomeNet", [conn0], "CRITICAL"⟩

/-- A Bluetooth payload with one near device and one beyond the limit. -/
def rawBt0 : BtRawData :=
  ⟨none, none, [⟨some 5, "LOW"⟩, ⟨some 15, "CRITICAL"⟩]⟩

/-- Helper: the parsed signal percentage of `conn0`. -/
theorem signalPercent_conn0 : signalPercent conn0 = 80 := by
  have h : parsePyFloat (normalizedSignalStr conn0) = some ((80 : ℕ) : ℚ) := by decide
  simp [signalPercent, h]

/-- Helper: feature vector and heuristic tier of `conn0`. -/
theorem featuresAndTier_conn0 :
    wifiFeaturesAndTier conn0 = ([-44, 1.5, 10, 9, 0], "LOW") := by
  have hs : isSecure conn0 = true := by decide
  simp [wifiFeaturesAndTier, hs, signalPercent_conn0]
  norm_num

/-- Helper: `coreThreat` always scores `-1`, below the threshold. -/
theorem assess_signal_coreThreat (v : List ℚ) :
    assess_signal coreThreat v = ("THREAT", -1) := by
  simp only [assess_signal, coreThreat]
  norm_num [THREAT_THRESHOLD]

/-- Helper: the full report for `conn0` under `coreThreat`. -/
theorem process_wifi_data_conn0 :
    process_wifi_data coreThreat [conn0] = .ok c1Report := by
  simp only [process_wifi_data, featuresAndTier_conn0, assess_signal_coreThreat]
  simp [conn0, c1Report]

/-- Helper: the path-loss floor case of `calculate_distance`. -/
theorem calc_dist_of_ge {rssi : ℝ} (h : rssi ≥ -59.0) :
    calculate_distance rssi = 0.1 := by
  unfold calculate_distance
  rw [if_pos (show rssi ≥ RSSI_AT_1M from h)]

/-- Helper: the power-law case of `calculate_distance`, with the calibration
constants written out. -/
theorem calc_dist_of_lt {rssi : ℝ} (h : rssi < -59.0) :
    calculate_distance rssi = (10 : ℝ) ^ ((-59.0 - rssi) / (10 * 2.8)) := by
  unfold calculate_distance
  rw [if_neg (show ¬rssi ≥ RSSI_AT_1M from not_le.mpr h)]
  norm_num [RSSI_AT_1M, PATH_LOSS_EXPONENT]

/-- C1: for every non-empty network list, whenever `process_wifi_data`
returns a report, a statistical `"THREAT"` verdict on the derived feature
vector forces `threat_tier = "CRITICAL"` regardless of the heuristic tier,
and any other verdict leaves the heuristic tier unchanged. -/
theorem threat_overrides_heuristic_tier (core : AICore) (conn : NetworkRecord)
    (rest : List NetworkRecord) (r : WifiReport)
    (h : process_wifi_data core (conn :: rest) = .ok r) :
    ((assess_signal core (wifiFeaturesAndTier conn).1).1 = "THREAT" →
      r.threat_tier = "CRITICAL") ∧
    ((assess_signal core (wifiFeaturesAndTier conn).1).1 ≠ "THREAT" →
      r.threat_tier = (wifiFeaturesAndTier conn).2) := by
  simp only [process_wifi_data] at h
  cases hs : conn.ssid with
  | none => rw [hs] at h; exact absurd h (by simp)
  | some s =>
    rw [hs, Except.ok.injEq] at h
    subst h
    constructor
    · intro ht; simp [ht]
    · intro ht; simp [ht]

/-- Witness for C1: a concrete secure network scored as a threat ends up
with tier `"CRITICAL"`. -/
theorem threat_overrides_heuristic_tier_witness : c1Report.threat_tier = "CRITICAL" :=
  (threat_overrides_heuristic_tier coreThreat conn0 [] c1Report
      process_wifi_data_conn0).1
    (by rw [assess_signal_coreThreat])

/-- C2 (amended): for the server pipeline `assess_signal`, if any of the
three artifact loads failed at startup, or the transform/score chain raises
at runtime, the call returns `("PROCESSING_ERROR", 999.0)`; being a total
Lean function, it never propagates an exception. -/
theorem pipeline_error_contract (a : ArtifactLoad) (run : List ℚ → RunOutcome)
    (v : List ℚ)
    (h : a.scalerOk = false ∨ a.pcaOk = false ∨ a.modelOk = false ∨
      run v = .raised) :
    assess_signal ⟨modelLoadedAfterStartup a, run⟩ v = ("PROCESSING_ERROR", 999) := by
  rcases h with h | h | h | h
  · simp [assess_signal, modelLoadedAfterStartup, h]
  · simp [assess_signal, modelLoadedAfterStartup, h]
  · simp [assess_signal, modelLoadedAfterStartup, h]
  · cases hm : modelLoadedAfterStartup a <;> simp [assess_signal, hm, h]

/-- Witness for C2: with the scaler load failed, a concrete call returns the
`PROCESSING_ERROR` sentinel. -/
theorem pipeline_error_contract_witness :
    assess_signal ⟨modelLoadedAfterStartup ⟨false, true, true⟩,
      fun _ => RunOutcome.scored 0⟩ [] = ("PROCESSING_ERROR", 999) :=
  pipeline_error_contract ⟨false, true, true⟩ (fun _ => RunOutcome.scored 0) []
    (Or.inl rfl)

/-- Counterexample to C2 as stated: the standalone scoring path
`assess_live_signal` propagates a runtime transform exception to the caller
instead of converting it, and reports missing artifacts as `"ERROR"`, not
`"PROCESSING_ERROR"`. -/
theorem live_path_diverges :
    assess_live_signal ⟨true, fun _ => RunOutcome.raised⟩ [-35, 15, 120, 2, 1] =
      .error () ∧
    assess_live_signal ⟨false, fun _ => RunOutcome.scored 0⟩ [-35, 15, 120, 2, 1] =
      .ok ("ERROR", 999) :=
  ⟨rfl, rfl⟩

/-- C3: on an empty network list, `process_wifi_data` returns the
`NO_NETWORKS_FOUND` sentinel report — score `0.0`, five `-1.0` features,
ssid `"N/A"`, empty network list, tier `"LOW"` — for every AI core, i.e.
without consulting the statistical pipeline. -/
theorem empty_scan_sentinel_report (core : AICore) :
    process_wifi_data core [] =
      .ok ⟨"NO_NETWORKS_FOUND", 0, [-1, -1, -1, -1, -1], "N/A", [], "LOW"⟩ :=
  rfl

/-- C4: on a watcher tick where the mtime marker advanced but the fetched
payload is unreadable or empty, the `last_modified_time` marker (and the
emitted-report list) is unchanged; and conversely the marker moves only on
a tick that fetched a non-empty payload and processed it into a report. -/
theorem marker_unchanged_on_empty_payload (core : AICore) (last : ℚ)
    (env : TickEnv) :
    ((∃ m, env.mtime = some m ∧ m > last) →
      (env.payload = none ∨ env.payload = some []) →
      check_for_file_updates_tick core last env = (last, [])) ∧
    ((check_for_file_updates_tick core last env).1 ≠ last →
      ∃ m nets report, env.mtime = some m ∧ m > last ∧
        env.payload = some nets ∧ nets ≠ [] ∧
        process_wifi_data core nets = .ok report ∧
        check_for_file_updates_tick core last env = (m, [report])) := by
  constructor
  · rintro ⟨m, hm, hgt⟩ hp
    rcases hp with hp | hp <;>
      simp [check_for_file_updates_tick, hm, hp, hgt]
  · intro hne
    cases hmt : env.mtime with
    | none => simp [check_for_file_updates_tick, hmt] at hne
    | some m =>
      by_cases hgt : m > last
      · cases hpl : env.payload with
        | none => simp [check_for_file_updates_tick, hmt, hpl] at hne
        | some nets =>
          cases nets with
          | nil => simp [check_for_file_updates_tick, hmt, hpl] at hne
          | cons n ns =>
            cases hpr : process_wifi_data core (n :: ns) with
            | error e =>
              simp [check_for_file_updates_tick, hmt, hpl, hgt, hpr] at hne
            | ok report =>
              exact ⟨m, n :: ns, report, rfl, hgt, rfl, by simp, hpr,
                by simp [check_for_file_updates_tick, hmt, hpl, hgt, hpr]⟩
      · simp [check_for_file_updates_tick, hmt, hgt] at hne

/-- Witness for C4: marker stays at `1` when mtime `5` arrives with an empty
payload. -/
theorem marker_unchanged_on_empty_payload_witness :
    check_for_file_updates_tick coreThreat 1 ⟨some 5, some []⟩ = (1, []) :=
  (marker_unchanged_on_empty_payload coreThreat 1 ⟨some 5, some []⟩).1
    ⟨5, rfl, by norm_num⟩ (Or.inr rfl)

/-- C5: `calculate_distance` is total over ℝ and matches the spec's two-case
contract with the calibration constants `-59.0` dBm and exponent `2.8`: the
0.1 m floor at or above the reference, and the log-distance power law
strictly below it. -/
theorem distance_model_cases (rssi : ℝ) :
    (rssi ≥ -59.0 → calculate_distance rssi = 0.1) ∧
    (rssi < -59.0 →
      calculate_distance rssi = (10 : ℝ) ^ ((-59.0 - rssi) / (10 * 2.8))) :=
  ⟨fun h => calc_dist_of_ge h, fun h => calc_dist_of_lt h⟩

/-- Witness for C5: both cases evaluated at concrete RSSI values. -/
theorem distance_model_cases_witness :
    calculate_distance (-59.0) = 0.1 ∧
    calculate_distance (-87.0) = (10 : ℝ) ^ (((-59.0 : ℝ) - (-87.0)) / (10 * 2.8)) :=
  ⟨(distance_model_cases (-59.0)).1 (by norm_num),
    (distance_model_cases (-87.0)).2 (by norm_num)⟩

/-- C9: below the reference RSSI, `calculate_distance` is strictly
antitone — weaker signal means strictly larger estimated distance. -/
theorem distance_strict_antitone (r1 r2 : ℝ) (h12 : r1 < r2) (h2 : r2 < -59.0) :
    calculate_distance r2 < calculate_distance r1 := by
  have h1 : r1 < -59.0 := h12.trans h2
  rw [calc_dist_of_lt h1, calc_dist_of_lt h2]
  rw [Real.rpow_lt_rpow_left_iff (by norm_num : (1 : ℝ) < 10)]
  rw [div_lt_div_iff_of_pos_right (by norm_num : (0 : ℝ) < 10 * 2.8)]
  linarith

/-- Witness for C9: a concrete strictly-ordered pair below the reference. -/
theorem distance_strict_antitone_witness :
    calculate_distance (-73.0) < calculate_distance (-87.0) :=
  distance_strict_antitone (-87.0) (-73.0) (by norm_num) (by norm_num)

/-- C6: in the Bluetooth tiering table the first branch wins — whenever the
estimated distance is under 0.5 m and the device is audio/video class or its
name contains "sniffer" or "mic", the status is `"CRITICAL"`; in particular
a device named "Wireless Mic" at RSSI −40 dBm is `"CRITICAL"`. -/
theorem proximate_audio_sniffer_critical (rssi : ℝ) (name : List Char) :
    (calculate_distance rssi < 0.5 →
      (get_major_class_from_name name = MAJOR_CLASS_AUDIO_VIDEO ∨
        containsSub (lowerChars name) "sniffer".toList = true ∨
        containsSub (lowerChars name) "mic".toList = true) →
      (assess_bluetooth_threat rssi (get_major_class_from_name name) name).status =
        "CRITICAL") ∧
    (assess_bluetooth_threat (-40) (get_major_class_from_name ("Wireless Mic").toList)
        ("Wireless Mic").toList).status = "CRITICAL" := by
  constructor
  · intro hd hc
    unfold assess_bluetooth_threat
    dsimp only
    rw [if_pos hd, if_pos hc]
  · have hd : calculate_distance (-40) = 0.1 := calc_dist_of_ge (by norm_num)
    have hclass :
        get_major_class_from_name ("Wireless Mic").toList = MAJOR_CLASS_AUDIO_VIDEO := by
      decide
    unfold assess_bluetooth_threat
    dsimp only
    rw [hd, if_pos (by norm_num : (0.1 : ℝ) < 0.5), if_pos (Or.inl hclass)]

/-- Witness for C6: the general branch applied to a "usb sniffer" device at
RSSI −40 dBm. -/
theorem proximate_audio_sniffer_critical_witness :
    (assess_bluetooth_threat (-40) (get_major_class_from_name ("usb sniffer").toList)
        ("usb sniffer").toList).status = "CRITICAL" :=
  (proximate_audio_sniffer_critical (-40) (("usb sniffer").toList)).1
    (by rw [calc_dist_of_ge (by norm_num : (-40 : ℝ) ≥ -59.0)]; norm_num)
    (Or.inr (Or.inl (by decide)))

/-- C7: the feature vector is derived deterministically from the first
record — `rssi_mean = -100 + 0.7 × signal_percent` with the parsed
percentage defaulting to 70 on failure, and the remaining four features and
heuristic tier selected by the secure / public-open / generic-open case;
a secure network at 80 % yields `[-44.0, 1.5, 10, 9, 0]` with tier LOW. -/
theorem wifi_feature_derivation_cases (conn : NetworkRecord) :
    (isSecure conn = true →
      wifiFeaturesAndTier conn =
        ([-100 + signalPercent conn * 0.7, 1.5, 10, 9, 0], "LOW")) ∧
    (isSecure conn = false → isPublicOpen conn = true →
      wifiFeaturesAndTier conn =
        ([-100 + signalPercent conn * 0.7, 5.0, 30, 7, 0], "MILD")) ∧
    (isSecure conn = false → isPublicOpen conn = false →
      wifiFeaturesAndTier conn =
        ([-100 + signalPercent conn * 0.7, 25.0, 150, 1, 1], "HIGH")) ∧
    (parsePyFloat (normalizedSignalStr conn) = none → signalPercent conn = 70) ∧
    wifiFeaturesAndTier conn0 = ([-44, 1.5, 10, 9, 0], "LOW") := by
  refine ⟨?_, ?_, ?_, ?_, featuresAndTier_conn0⟩
  · intro h; simp [wifiFeaturesAndTier, h]
  · intro h1 h2; simp [wifiFeaturesAndTier, h1, h2]
  · intro h1 h2; simp [wifiFeaturesAndTier, h1, h2]
  · intro h; simp [signalPercent, h]

/-- Witness for C7: the secure case applied to `conn0`. -/
theorem wifi_feature_derivation_cases_witness :
    wifiFeaturesAndTier conn0 =
      ([-100 + signalPercent conn0 * 0.7, 1.5, 10, 9, 0], "LOW") :=
  (wifi_feature_derivation_cases conn0).1 (by decide)

/-- C8: no device in the Bluetooth report's `devices` list has a recorded
`distance_m` beyond `BT_PROXIMITY_LIMIT`; and `max_threat` is computed over
exactly that already-filtered list. -/
theorem bt_report_respects_proximity_limit (raw : Option BtRawData) :
    (∀ d ∈ (bluetooth_scan_endpoint raw).devices, ∀ x : ℚ,
      d.distance_m = some x → x ≤ BT_PROXIMITY_LIMIT) ∧
    (bluetooth_scan_endpoint raw).max_threat =
      maxThreatOf "LOW" ((bluetooth_scan_endpoint raw).devices) := by
  cases raw with
  | none => exact ⟨by intro d hd; simp [bluetooth_scan_endpoint] at hd, rfl⟩
  | some data =>
    refine ⟨?_, rfl⟩
    intro d hd x hx
    simp only [bluetooth_scan_endpoint, List.mem_filter] at hd
    have h2 := hd.2
    simp only [hx, Option.getD_some, decide_eq_true_eq] at h2
    exact h2

/-- Helper: the concrete endpoint output for `rawBt0` keeps only the device
within the limit. -/
theorem endpoint_rawBt0 :
    (bluetooth_scan_endpoint (some rawBt0)).devices = [⟨some 5, "LOW"⟩] := by
  simp only [bluetooth_scan_endpoint, rawBt0, List.filter]
  norm_num [BT_PROXIMITY_LIMIT]

/-- Witness for C8: the surviving device of `rawBt0` is within the limit. -/
theorem bt_report_respects_proximity_limit_witness :
    (5 : ℚ) ≤ BT_PROXIMITY_LIMIT :=
  (bt_report_respects_proximity_limit (some rawBt0)).1 ⟨some 5, "LOW"⟩
    (by rw [endpoint_rawBt0]; exact List.mem_singleton_self _) 5 rfl

/-- C10: `process_wifi_data` is total only when the first record carries an
`SSID` key — on a non-empty list whose first record lacks it, the unguarded
`connected_network['SSID']` lookup raises `KeyError` instead of returning a
report, even though the other fields are read with defaults. -/
theorem missing_ssid_raises_keyerror (core : AICore) (conn : NetworkRecord)
    (rest : List NetworkRecord) (h : conn.ssid = none) :
    process_wifi_data core (conn :: rest) = .error () := by
  simp [process_wifi_data, h]

/-- Witness for C10: a secure record with no `SSID` key makes the resolver
raise. -/
theorem missing_ssid_raises_keyerror_witness :
    process_wifi_data coreThreat [⟨some "WPA2-Personal", some "80%", none⟩] =
      .error () :=
  missing_ssid_raises_keyerror coreThreat ⟨some "WPA2-Personal", some "80%", none⟩
    [] rfl
